import Mathlib

/-!
# Verification of the proton-webdav-bridge session & server lifecycle orchestrator

A shallow embedding of `main.go` of tefkah/proton-webdav-bridge.

Modelling conventions:
* Go strings are Lean `String`; Go `len` on a string is `String.utf8ByteSize`
  (both count UTF-8 bytes).
* `time.Time` is `Nat`; `t1.After(t2)` is `t1 > t2`.
* The nil-able `error` results of external calls (the Proton backend login,
  `storeTokens`, `os.Remove`, `session.Init`, the listener bind) are
  nondeterministic inputs of each operation, passed as `Except`/`Option`/`Bool`
  parameters.
* `AuthStatus.Error` is a Go string, `""` standing for the absent error.
* Each entry point of the program (`doListen`, `loginWithCredentials`, the
  `OnTokensExpired` callback, `handleLogout`) runs under the relevant locks in
  the source; it is modelled as one atomic step, including the server start the
  source spawns as a goroutine at the end of a successful login.
* `live` counts the `http.Server` instances currently listening (incremented
  when `ListenAndServe` binds, decremented by `Shutdown`, which closes the
  listener even when it returns an error).  `hasServer` is `webdavServer != nil`.
-/

namespace ProtonWebdavBridge

/-- `drive.Tokens`: the opaque session-token bundle persisted in `tokens.json`.
Only the access/refresh fields matter to the orchestrator. -/
structure Tokens where
  accessToken : String
  refreshToken : String
deriving DecidableEq, Repr

/-- The `AuthStatus` record of `main.go` (fields `LoggedIn`, `LastLogin`,
`NeedsLogin`, `Error`); `lastLogin = none` models the zero `time.Time`. -/
structure AuthStatus where
  loggedIn : Bool
  lastLogin : Option Nat
  needsLogin : Bool
  error : String
deriving DecidableEq, Repr

/-- The global mutable state of the orchestrator: the `authStatus` singleton,
the `webdavServer` variable (`hasServer`), the count of listening server
instances (`live`), and the persisted token file (`none` when absent or
unreadable). -/
structure SysState where
  auth : AuthStatus
  hasServer : Bool
  live : Nat
  tokenFile : Option Tokens
deriving DecidableEq, Repr

/-- `stopWebDAVServer` (main.go:452): returns at once when `webdavServer == nil`;
otherwise cancels the context, calls `Shutdown` (whose error is only printed,
`shutdownErr`), and sets `webdavServer = nil`.  `Shutdown` closes the listener
even when it reports an error, so `live` drops in either case. -/
def stopWebDAVServer (_shutdownErr : Bool) (s : SysState) : SysState :=
  if s.hasServer then
    { s with hasServer := false, live := s.live - 1 }
  else s

/-- `startWebDAVServer` (main.go:365): under `webdavMutex`, stops the existing
server if any, then loads the tokens (returning on failure), initializes the
drive session (`initOk`; returning on failure), assigns `webdavServer`, and
spawns `ListenAndServe` (`bindOk`: whether the listener binds). -/
def startWebDAVServer (initOk bindOk shutdownErr : Bool) (s : SysState) : SysState :=
  let s1 := if s.hasServer then stopWebDAVServer shutdownErr s else s
  match s1.tokenFile with
  | none => s1
  | some _ =>
    if initOk then
      { s1 with hasServer := true, live := s1.live + (if bindOk then 1 else 0) }
    else s1

/-- `loginWithCredentials` (main.go:150): calls the backend login (`backend`:
either the tokens it returns or its error message).  On backend failure it
records the failed status and returns the error.  On backend success it calls
`storeTokens` (`storeErr`), returning that error without touching `authStatus`
when it fails; otherwise it records the logged-in status and spawns
`startWebDAVServer`.  The second component is the returned `error`. -/
def loginWithCredentials (backend : Except String Tokens) (storeErr : Option String)
    (initOk bindOk shutdownErr : Bool) (now : Nat) (s : SysState) :
    SysState × Option String :=
  match backend with
  | .error msg =>
    ({ s with auth := { s.auth with loggedIn := false, needsLogin := true, error := msg } },
      some msg)
  | .ok toks =>
    match storeErr with
    | some e => (s, some e)
    | none =>
      let s1 := { s with tokenFile := some toks }
      let s2 := { s1 with
        auth := { loggedIn := true, lastLogin := some now, needsLogin := false, error := "" } }
      (startWebDAVServer initOk bindOk shutdownErr s2, none)

/-- `canAutoLogin` (main.go:192): both credential environment variables are
non-empty. -/
def canAutoLogin (envUser envPass : String) : Bool :=
  envUser ≠ "" && envPass ≠ ""

/-- The `OnTokensUpdated` callback (main.go:392): stores the renewed tokens;
a store failure is only printed, nothing else happens. -/
def onTokensUpdated (storeErr : Option String) (newToks : Tokens) (s : SysState) : SysState :=
  match storeErr with
  | none => { s with tokenFile := some newToks }
  | some _ => s

/-- The `OnTokensExpired` callback (main.go:401): records the expired status,
stops the WebDAV server, and, when `canAutoLogin`, runs `doLogin` (which
resolves the credentials from the environment and calls
`loginWithCredentials`, its error being only printed).  The second component
records whether the re-login was attempted. -/
def onTokensExpired (envUser envPass : String) (backend : Except String Tokens)
    (storeErr : Option String) (initOk bindOk shutdownErr : Bool) (now : Nat)
    (s : SysState) : SysState × Bool :=
  let s1 := { s with
    auth := { s.auth with loggedIn := false, needsLogin := true, error := "Tokens expired" } }
  let s2 := stopWebDAVServer shutdownErr s1
  if canAutoLogin envUser envPass then
    ((loginWithCredentials backend storeErr initOk bindOk shutdownErr now s2).1, true)
  else (s2, false)

/-- `handleLogout` (main.go:772): under `webdavMutex` stops the server if any,
deletes the token file (`removed`: whether the file ended up gone), and resets
`authStatus`. -/
def handleLogout (removed shutdownErr : Bool) (s : SysState) : SysState :=
  let s1 := if s.hasServer then stopWebDAVServer shutdownErr s else s
  let s2 := if removed then { s1 with tokenFile := none } else s1
  { s2 with auth := { s2.auth with loggedIn := false, needsLogin := true, error := "" } }

/-- `doListen` (main.go:197), the token-resume startup path: loads the token
file; on failure records "No valid tokens found" and, when `canAutoLogin`,
attempts `doLogin`; when the loaded access token is non-empty records the
logged-in status (including `LastLogin = time.Now()`) and spawns
`startWebDAVServer`; when the access token is empty does nothing. -/
def doListen (envUser envPass : String) (backend : Except String Tokens)
    (storeErr : Option String) (initOk bindOk shutdownErr : Bool) (now : Nat)
    (s : SysState) : SysState :=
  match s.tokenFile with
  | none =>
    let s1 := { s with
      auth := { s.auth with loggedIn := false, needsLogin := true
                            error := "No valid tokens found" } }
    if canAutoLogin envUser envPass then
      (loginWithCredentials backend storeErr initOk bindOk shutdownErr now s1).1
    else s1
  | some toks =>
    if toks.accessToken ≠ "" then
      let s1 := { s with
        auth := { s.auth with loggedIn := true, lastLogin := some now, needsLogin := false } }
      startWebDAVServer initOk bindOk shutdownErr s1
    else s

/-! ## The reachable states of the orchestrator

The entry points through which the program mutates the global state:
`doListen` runs at startup, `loginWithCredentials` is invoked by the
`/api/login` handler, `OnTokensExpired` fires from the backend, and
`handleLogout` is invoked by the `/api/logout` handler.  `startWebDAVServer`
and `stopWebDAVServer` are only ever called from inside these. -/

/-- One transition of the orchestrator, with the nondeterministic outcomes of
the external calls as parameters. -/
inductive Step : SysState → SysState → Prop
  | listen (envUser envPass : String) (backend : Except String Tokens)
      (storeErr : Option String) (initOk bindOk shutdownErr : Bool) (now : Nat)
      (s : SysState) :
      Step s (doListen envUser envPass backend storeErr initOk bindOk shutdownErr now s)
  | login (backend : Except String Tokens) (storeErr : Option String)
      (initOk bindOk shutdownErr : Bool) (now : Nat) (s : SysState) :
      Step s (loginWithCredentials backend storeErr initOk bindOk shutdownErr now s).1
  | expired (envUser envPass : String) (backend : Except String Tokens)
      (storeErr : Option String) (initOk bindOk shutdownErr : Bool) (now : Nat)
      (s : SysState) :
      Step s (onTokensExpired envUser envPass backend storeErr initOk bindOk shutdownErr now s).1
  | logout (removed shutdownErr : Bool) (s : SysState) :
      Step s (handleLogout removed shutdownErr s)

/-- A state the process can be in: at start `authStatus = &AuthStatus{LoggedIn: false}`,
no server, and an arbitrary token file on disk; then any sequence of steps. -/
inductive Reachable : SysState → Prop
  | init (tf : Option Tokens) :
      Reachable ⟨⟨false, none, false, ""⟩, false, 0, tf⟩
  | step {s s' : SysState} : Reachable s → Step s s' → Reachable s'

/-! ## The admin auth subsystem -/

/-- The `AdminAuth` record of `main.go`: the initialized flag, the stored
salted digest and salt, and the sessions map (token ↦ expiry), modelled as an
association list whose most recent insertion comes first. -/
structure AdminAuth where
  initialized : Bool
  passwordHash : String
  salt : String
  sessions : List (String × Nat)
deriving DecidableEq, Repr

/-- The outcome an admin handler reports over HTTP. -/
inductive AdminResult where
  | success (token : String)
  | alreadyInitialized
  | weakPassword
  | notInitialized
  | invalidPassword
  | saltError
  | storeError
  | sessionError
deriving DecidableEq, Repr

/-- `hashPassword` (main.go:348): the hex SHA-256 digest of `password + salt`.
The digest primitive itself is external crypto; `H` abstracts
`hex(sha256(·))`, while the concatenation is the source's. -/
def hashPassword (H : String → String) (password salt : String) : String :=
  H (password ++ salt)

/-- The 24-hour admin-session lifetime (`24 * time.Hour`), in seconds. -/
def sessionDuration : Nat := 24 * 60 * 60

/-- `withAdminAuth` (main.go:513), as the decision whether the wrapped handler
runs: when not initialized, always; otherwise the request must carry an
`admin_session` cookie (`cookie`) whose value maps to a session expiry not
after which `time.Now()` is (`!exists || time.Now().After(expiry)` rejects). -/
def withAdminAuth (auth : AdminAuth) (cookie : Option String) (now : Nat) : Bool :=
  if !auth.initialized then true
  else
    match cookie with
    | none => false
    | some tok =>
      match auth.sessions.lookup tok with
      | none => false
      | some expiry => !(now > expiry)

/-- `handleAdminSetup` (main.go:564) after the method/parse checks: rejects
when already initialized, rejects passwords under 8 bytes, then generates a
salt (`saltGen`, `none` on `rand` failure), hashes, persists (`storeOk`),
updates the in-memory credential, generates a session token (`tokenGen`) and
registers the 24h session. -/
def handleAdminSetup (H : String → String) (auth : AdminAuth) (password : String)
    (saltGen : Option String) (storeOk : Bool) (tokenGen : Option String)
    (now : Nat) : AdminAuth × AdminResult :=
  if auth.initialized then (auth, .alreadyInitialized)
  else if password.utf8ByteSize < 8 then (auth, .weakPassword)
  else
    match saltGen with
    | none => (auth, .saltError)
    | some salt =>
      let passwordHash := hashPassword H password salt
      if !storeOk then (auth, .storeError)
      else
        let auth1 := { auth with
          passwordHash := passwordHash, salt := salt, initialized := true }
        match tokenGen with
        | none => (auth1, .sessionError)
        | some token =>
          ({ auth1 with sessions := (token, now + sessionDuration) :: auth1.sessions },
            .success token)

/-- `handleAdminLogin` (main.go:649) after the method/parse checks: rejects
when not initialized, rejects a digest mismatch with `InvalidPassword`, else
issues a fresh 24h session (`tokenGen` is the generated token). -/
def handleAdminLogin (H : String → String) (auth : AdminAuth) (password : String)
    (tokenGen : Option String) (now : Nat) : AdminAuth × AdminResult :=
  if !auth.initialized then (auth, .notInitialized)
  else if hashPassword H password auth.salt ≠ auth.passwordHash then
    (auth, .invalidPassword)
  else
    match tokenGen with
    | none => (auth, .sessionError)
    | some token =>
      ({ auth with sessions := (token, now + sessionDuration) :: auth.sessions },
        .success token)

/-! ## Sequences of Start/Stop calls on the Server Lifecycle Manager -/

/-- One call into the Server Lifecycle Manager, with the outcomes of its
external calls. -/
inductive LifeOp where
  | start (initOk bindOk shutdownErr : Bool)
  | stop (shutdownErr : Bool)
deriving DecidableEq, Repr

/-- Apply one lifecycle call. -/
def applyLifeOp : LifeOp → SysState → SysState
  | .start initOk bindOk shutdownErr, s => startWebDAVServer initOk bindOk shutdownErr s
  | .stop shutdownErr, s => stopWebDAVServer shutdownErr s

/-- Run a sequence of lifecycle calls. -/
def runLife : List LifeOp → SysState → SysState
  | [], s => s
  | op :: ops, s => runLife ops (applyLifeOp op s)

/-- The handle invariant: at most one server instance is listening, and none
is when the `webdavServer` variable is nil. -/
abbrev ServerInv (s : SysState) : Prop :=
  s.live ≤ 1 ∧ (s.hasServer = false → s.live = 0)

theorem serverInv_stop (se : Bool) (s : SysState) (h : ServerInv s) :
    ServerInv (stopWebDAVServer se s) := by
  rcases s with ⟨a, hs, l, tf⟩
  rcases h with ⟨h1, h2⟩
  cases hs <;> refine ⟨?_, ?_⟩ <;> intros <;> simp_all [stopWebDAVServer]

theorem serverInv_start (io bo se : Bool) (s : SysState) (h : ServerInv s) :
    ServerInv (startWebDAVServer io bo se s) := by
  rcases s with ⟨a, hs, l, tf⟩
  rcases h with ⟨h1, h2⟩
  cases hs <;> cases tf <;> cases io <;> cases bo <;> refine ⟨?_, ?_⟩ <;> intros <;>
    simp_all [startWebDAVServer, stopWebDAVServer]

theorem serverInv_runLife (ops : List LifeOp) (s : SysState) (h : ServerInv s) :
    ServerInv (runLife ops s) := by
  induction ops generalizing s with
  | nil => exact h
  | cons op ops ih =>
    cases op with
    | start io bo se => exact ih _ (serverInv_start io bo se s h)
    | stop se => exact ih _ (serverInv_stop se s h)

/-- C1: for every sequence of Start/Stop operations, at most one ServerHandle
is live at any instant (the handle invariant is preserved along any run);
Stop is a no-op when no handle exists; and Stop releases the handle (sets
`webdavServer` to nil) even when graceful shutdown returns an error. -/
theorem c1_server_lifecycle :
    (∀ (ops : List LifeOp) (s : SysState), ServerInv s →
      ServerInv (runLife ops s) ∧ (runLife ops s).live ≤ 1)
  ∧ (∀ (se : Bool) (s : SysState), s.hasServer = false → stopWebDAVServer se s = s)
  ∧ (∀ (se : Bool) (s : SysState), (stopWebDAVServer se s).hasServer = false) := by
  refine ⟨?_, ?_, ?_⟩
  · intro ops s h
    have hr := serverInv_runLife ops s h
    exact ⟨hr, hr.1⟩
  · intro se s h
    unfold stopWebDAVServer
    simp [h]
  · intro se s
    rcases s with ⟨a, hs, l, tf⟩
    cases hs <;> rfl

/-- Witness for `c1_server_lifecycle` at a concrete run: start, start again
(stopping the first), stop with a shutdown error. -/
theorem c1_server_lifecycle_witness :
    (ServerInv (runLife [LifeOp.start true true false, LifeOp.start true true true,
        LifeOp.stop true] ⟨⟨false, none, false, ""⟩, false, 0, some ⟨"acc", "ref"⟩⟩)
      ∧ (runLife [LifeOp.start true true false, LifeOp.start true true true,
          LifeOp.stop true] ⟨⟨false, none, false, ""⟩, false, 0, some ⟨"acc", "ref"⟩⟩).live ≤ 1)
  ∧ stopWebDAVServer true ⟨⟨false, none, false, ""⟩, false, 0, none⟩
      = ⟨⟨false, none, false, ""⟩, false, 0, none⟩ :=
  ⟨(c1_server_lifecycle.1 _ _ (by decide)),
    c1_server_lifecycle.2.1 true _ rfl⟩

/-! ## The AuthStatus invariant -/

/-- `loggedIn` implies not `needsLogin`. -/
abbrev AuthInv (s : SysState) : Prop :=
  s.auth.loggedIn = true → s.auth.needsLogin = false

theorem auth_stop (se : Bool) (s : SysState) : (stopWebDAVServer se s).auth = s.auth := by
  rcases s with ⟨a, hs, l, tf⟩
  cases hs <;> rfl

theorem auth_start (io bo se : Bool) (s : SysState) :
    (startWebDAVServer io bo se s).auth = s.auth := by
  rcases s with ⟨a, hs, l, tf⟩
  cases hs <;> cases tf <;> cases io <;> rfl

theorem authInv_login (be : Except String Tokens) (storeErr : Option String)
    (io bo se : Bool) (now : Nat) (s : SysState) (h : AuthInv s) :
    AuthInv (loginWithCredentials be storeErr io bo se now s).1 := by
  cases be with
  | error msg => intro hc; simp [loginWithCredentials] at hc
  | ok toks =>
    cases storeErr with
    | some e => exact h
    | none =>
      intro _
      simp [loginWithCredentials, auth_start]

theorem authInv_listen (envU envP : String) (be : Except String Tokens)
    (storeErr : Option String) (io bo se : Bool) (now : Nat) (s : SysState)
    (h : AuthInv s) :
    AuthInv (doListen envU envP be storeErr io bo se now s) := by
  rcases s with ⟨a, hs, l, tf⟩
  cases tf with
  | none =>
    by_cases hca : canAutoLogin envU envP = true
    · simp only [doListen, hca, if_true]
      exact authInv_login be storeErr io bo se now _ (by intro hc; simp at hc)
    · simp only [doListen, hca, if_false]
      intro hc
      simp at hc
  | some toks =>
    by_cases hacc : toks.accessToken = ""
    · simp only [doListen, hacc]
      simpa using h
    · simp only [doListen]
      rw [if_pos hacc]
      intro _
      simp [auth_start]

theorem authInv_expired (envU envP : String) (be : Except String Tokens)
    (storeErr : Option String) (io bo se : Bool) (now : Nat) (s : SysState) :
    AuthInv (onTokensExpired envU envP be storeErr io bo se now s).1 := by
  by_cases hca : canAutoLogin envU envP = true
  · simp only [onTokensExpired, if_pos hca]
    exact authInv_login be storeErr io bo se now _
      (by intro hc; rw [auth_stop] at hc; simp at hc)
  · simp only [onTokensExpired, if_neg hca]
    intro hc
    rw [auth_stop] at hc
    simp at hc

theorem authInv_logout (removed se : Bool) (s : SysState) :
    AuthInv (handleLogout removed se s) := by
  intro hc
  simp [handleLogout] at hc

theorem authInv_step {s s' : SysState} (hs : Step s s') (h : AuthInv s) : AuthInv s' := by
  cases hs with
  | listen envU envP be storeErr io bo se now s => exact authInv_listen envU envP be storeErr io bo se now s h
  | login be storeErr io bo se now s => exact authInv_login be storeErr io bo se now s h
  | expired envU envP be storeErr io bo se now s => exact authInv_expired envU envP be storeErr io bo se now s
  | logout removed se s => exact authInv_logout removed se s

theorem authInv_reachable {s : SysState} (h : Reachable s) : AuthInv s := by
  induction h with
  | init tf => intro hc; simp at hc
  | step _ hstep ih => exact authInv_step hstep ih

/-- C3: the AuthStatus invariant `loggedIn = true → needsLogin = false` holds
at process start and in every reachable state: it is preserved by interactive
login success and failure, startup token resume, the token-expiry callback,
and logout. -/
theorem c3_authstatus_invariant (s : SysState) (h : Reachable s)
    (hl : s.auth.loggedIn = true) : s.auth.needsLogin = false :=
  authInv_reachable h hl

/-- Witness for `c3_authstatus_invariant`: the state reached by resuming from
a stored token is logged in, and indeed has `needsLogin = false`. -/
theorem c3_authstatus_invariant_witness :
    (doListen "" "" (.ok ⟨"x", "y"⟩) none true true true 0
      ⟨⟨false, none, false, ""⟩, false, 0, some ⟨"acc", "ref"⟩⟩).auth.needsLogin = false :=
  c3_authstatus_invariant _
    (Reachable.step (Reachable.init (some ⟨"acc", "ref"⟩))
      (Step.listen "" "" (.ok ⟨"x", "y"⟩) none true true true 0 _))
    (by decide)

/-! ## Reachability of a serving file-server outside the Connected state -/

theorem stop_hasServer_false (se : Bool) (s : SysState) :
    (stopWebDAVServer se s).hasServer = false := by
  rcases s with ⟨a, hs, l, tf⟩
  cases hs <;> rfl

theorem stop_live_zero (se : Bool) (s : SysState) (h : ServerInv s) :
    (stopWebDAVServer se s).live = 0 := by
  rcases s with ⟨a, hs, l, tf⟩
  rcases h with ⟨h1, h2⟩
  cases hs <;> simp_all [stopWebDAVServer]

theorem login_ok_loggedIn (toks : Tokens) (io bo se : Bool) (now : Nat) (s : SysState) :
    ((loginWithCredentials (.ok toks) none io bo se now s).1).auth.loggedIn = true := by
  simp [loginWithCredentials, auth_start]

/-- C2 counterexample: from a fresh process with a stored token, resuming
(`doListen`) starts the server in the Connected state, but a subsequent failed
interactive login (`loginWithCredentials` with a backend error) sets
`loggedIn := false` and `needsLogin := true` without stopping the server, so a
reachable state has the file-server listening (`1 ≤ live`) while AuthStatus is
not Connected. -/
theorem c2_counterexample :
    ∃ s : SysState, Reachable s ∧ 1 ≤ s.live ∧ s.hasServer = true
      ∧ s.auth.loggedIn = false ∧ s.auth.needsLogin = true :=
  ⟨(loginWithCredentials (.error "bad credentials") none true true true 1
      (doListen "" "" (.ok ⟨"x", "y"⟩) none true true true 0
        ⟨⟨false, none, false, ""⟩, false, 0, some ⟨"acc", "ref"⟩⟩)).1,
    Reachable.step
      (Reachable.step (Reachable.init (some ⟨"acc", "ref"⟩))
        (Step.listen "" "" (.ok ⟨"x", "y"⟩) none true true true 0 _))
      (Step.login (.error "bad credentials") none true true true 1 _),
    by decide, by decide, by decide, by decide⟩

/-- C2 amended: the token-expiry callback and logout always leave the server
stopped or the state Connected, the startup resume path only serves once
`loggedIn` is set, and a successful login sets `loggedIn := true` in the same
step that starts the server; but a *failed* interactive login leaves a running
server untouched while clearing `loggedIn`, which is why the unrestricted
invariant fails (see the counterexample). -/
theorem c2_amended :
    (∀ (envU envP : String) (be : Except String Tokens) (storeErr : Option String)
        (io bo se : Bool) (now : Nat) (s : SysState), ServerInv s →
        1 ≤ ((onTokensExpired envU envP be storeErr io bo se now s).1).live →
        ((onTokensExpired envU envP be storeErr io bo se now s).1).auth.loggedIn = true)
  ∧ (∀ (removed se : Bool) (s : SysState), ServerInv s →
        (handleLogout removed se s).live = 0)
  ∧ (∀ (envU envP : String) (be : Except String Tokens) (storeErr : Option String)
        (io bo se : Bool) (now : Nat) (s : SysState), ServerInv s → s.hasServer = false →
        1 ≤ (doListen envU envP be storeErr io bo se now s).live →
        (doListen envU envP be storeErr io bo se now s).auth.loggedIn = true)
  ∧ (∀ (toks : Tokens) (io bo se : Bool) (now : Nat) (s : SysState),
        ((loginWithCredentials (.ok toks) none io bo se now s).1).auth.loggedIn = true)
  ∧ (∀ (msg : String) (storeErr : Option String) (io bo se : Bool) (now : Nat)
        (s : SysState),
        ((loginWithCredentials (.error msg) storeErr io bo se now s).1).live = s.live
        ∧ ((loginWithCredentials (.error msg) storeErr io bo se now s).1).hasServer
            = s.hasServer) := by
  refine ⟨?_, ?_, ?_, ?_, ?_⟩
  · intro envU envP be storeErr io bo se now s h hl
    rcases s with ⟨a, hs, l, tf⟩
    rcases h with ⟨h1, h2⟩
    by_cases hca : canAutoLogin envU envP = true <;>
      cases hs <;> cases be <;> cases storeErr <;> cases tf <;> cases io <;>
        simp_all [onTokensExpired, loginWithCredentials, stopWebDAVServer,
          startWebDAVServer, auth_start]
  · intro removed se s h
    rcases s with ⟨a, hs, l, tf⟩
    rcases h with ⟨h1, h2⟩
    cases hs <;> cases removed <;> simp_all [handleLogout, stopWebDAVServer]
  · intro envU envP be storeErr io bo se now s h hsrv hl
    rcases s with ⟨a, hs, l, tf⟩
    rcases h with ⟨h1, h2⟩
    simp only at hsrv
    subst hsrv
    have hl0 : l = 0 := h2 rfl
    subst hl0
    cases tf with
    | none =>
      by_cases hca : canAutoLogin envU envP = true
      · simp only [doListen, if_pos hca] at hl ⊢
        cases be with
        | error msg => simp [loginWithCredentials] at hl
        | ok toks =>
          cases storeErr with
          | some e => simp [loginWithCredentials] at hl
          | none => exact login_ok_loggedIn toks io bo se now _
      · simp only [doListen, if_neg hca] at hl
        simp at hl
    | some toks =>
      by_cases hacc : toks.accessToken = ""
      · exfalso
        simp only [doListen] at hl
        rw [if_neg (by simpa using hacc)] at hl
        simp at hl
      · simp only [doListen]
        rw [if_pos (by simpa using hacc)]
        simp [auth_start]
  · intro toks io bo se now s
    exact login_ok_loggedIn toks io bo se now s
  · intro msg storeErr io bo se now s
    exact ⟨rfl, rfl⟩

/-- Witness for `c2_amended`: a concrete token-expiry with auto-login
credentials present and a successful re-login ends Connected. -/
theorem c2_amended_witness :
    ((onTokensExpired "user" "pass" (.ok ⟨"na", "nr"⟩) none true true true 5
        ⟨⟨true, some 0, false, ""⟩, true, 1, some ⟨"acc", "ref"⟩⟩).1).auth.loggedIn = true :=
  c2_amended.1 "user" "pass" (.ok ⟨"na", "nr"⟩) none true true true 5
    ⟨⟨true, some 0, false, ""⟩, true, 1, some ⟨"acc", "ref"⟩⟩ (by decide) (by decide)

/-! ## Interactive login (C4) -/

/-- C4 counterexample: a backend-successful login whose token persistence
fails does *not* set AuthStatus to logged-in and does *not* trigger a server
start — it returns the persistence error and leaves the state untouched. -/
theorem c4_counterexample :
    loginWithCredentials (.ok ⟨"acc", "ref"⟩) (some "disk full") true true true 3
        ⟨⟨false, none, false, ""⟩, false, 0, none⟩
      = (⟨⟨false, none, false, ""⟩, false, 0, none⟩, some "disk full")
  ∧ (loginWithCredentials (.ok ⟨"acc", "ref"⟩) (some "disk full") true true true 3
        ⟨⟨false, none, false, ""⟩, false, 0, none⟩).1.auth.loggedIn = false := by
  constructor
  · rfl
  · rfl

/-- C4 amended: on backend success *with successful persistence* the tokens
are stored, AuthStatus becomes `{loggedIn: true, lastLogin: now,
needsLogin: false, error: ""}` and the server start runs on that state; when
persistence fails the error is returned with nothing else changed; on backend
failure the failed status is recorded, the error returned, and the server
fields are untouched. -/
theorem c4_amended (io bo se : Bool) (now : Nat) (s : SysState) :
    (∀ toks : Tokens,
      loginWithCredentials (.ok toks) none io bo se now s
        = (startWebDAVServer io bo se
            { s with tokenFile := some toks,
                     auth := ⟨true, some now, false, ""⟩ }, none))
  ∧ (∀ (toks : Tokens) (e : String),
      loginWithCredentials (.ok toks) (some e) io bo se now s = (s, some e))
  ∧ (∀ (msg : String) (storeErr : Option String),
      loginWithCredentials (.error msg) storeErr io bo se now s
        = ({ s with auth := { s.auth with
              loggedIn := false, needsLogin := true, error := msg } }, some msg)
      ∧ ((loginWithCredentials (.error msg) storeErr io bo se now s).1).hasServer
          = s.hasServer
      ∧ ((loginWithCredentials (.error msg) storeErr io bo se now s).1).live = s.live) := by
  refine ⟨?_, ?_, ?_⟩
  · intro toks
    rfl
  · intro toks e
    rfl
  · intro msg storeErr
    exact ⟨rfl, rfl, rfl⟩

/-! ## The token-expiry callback (C5) -/

/-- C5 counterexample: the expiry callback records the error string
"Tokens expired", not "expired". -/
theorem c5_counterexample :
    ((onTokensExpired "" "" (.ok ⟨"a", "b"⟩) none true true true 0
        ⟨⟨true, some 0, false, ""⟩, true, 1, some ⟨"acc", "ref"⟩⟩).1).auth.error
      = "Tokens expired"
  ∧ "Tokens expired" ≠ "expired" := by
  constructor
  · rfl
  · decide

/-- C5 amended: the expiry callback (a) sets AuthStatus to `{loggedIn: false,
needsLogin: true, error: "Tokens expired"}`, (b) stops the file-server, and
(c) attempts a re-login iff both credential environment variables are
non-empty; without auto-login the system is left stopped and waiting, with
auto-login the re-login runs on the stopped state. -/
theorem c5_amended (envU envP : String) (be : Except String Tokens)
    (storeErr : Option String) (io bo se : Bool) (now : Nat) (s : SysState) :
    ((onTokensExpired envU envP be storeErr io bo se now s).2 = canAutoLogin envU envP)
  ∧ (canAutoLogin envU envP = false →
      onTokensExpired envU envP be storeErr io bo se now s
        = (stopWebDAVServer se { s with auth := { s.auth with
            loggedIn := false, needsLogin := true, error := "Tokens expired" } }, false)
      ∧ ((onTokensExpired envU envP be storeErr io bo se now s).1).hasServer = false
      ∧ ((onTokensExpired envU envP be storeErr io bo se now s).1).auth
          = ⟨false, s.auth.lastLogin, true, "Tokens expired"⟩)
  ∧ (canAutoLogin envU envP = true →
      onTokensExpired envU envP be storeErr io bo se now s
        = ((loginWithCredentials be storeErr io bo se now
            (stopWebDAVServer se { s with auth := { s.auth with
              loggedIn := false, needsLogin := true, error := "Tokens expired" } })).1,
            true)) := by
  refine ⟨?_, ?_, ?_⟩
  · by_cases hca : canAutoLogin envU envP = true
    · simp [onTokensExpired, hca]
    · simp only [onTokensExpired, if_neg hca]
      simp only [Bool.not_eq_true] at hca
      rw [hca]
  · intro hca
    have hca' : ¬(canAutoLogin envU envP = true) := by simp [hca]
    refine ⟨?_, ?_, ?_⟩
    · simp only [onTokensExpired, if_neg hca']
    · simp only [onTokensExpired, if_neg hca']
      exact stop_hasServer_false se _
    · simp only [onTokensExpired, if_neg hca']
      rw [auth_stop]
  · intro hca
    simp only [onTokensExpired, if_pos hca]

/-- Witness for `c5_amended`: with no environment credentials the callback
stops the server and records the expired status. -/
theorem c5_amended_witness :
    ((onTokensExpired "" "" (.ok ⟨"a", "b"⟩) none true true true 0
        ⟨⟨true, some 2, false, ""⟩, true, 1, some ⟨"acc", "ref"⟩⟩).1).hasServer = false :=
  ((c5_amended "" "" (.ok ⟨"a", "b"⟩) none true true true 0
      ⟨⟨true, some 2, false, ""⟩, true, 1, some ⟨"acc", "ref"⟩⟩).2.1 (by decide)).2.1

/-! ## Startup token resume (C6) -/

/-- C6 counterexample: resuming from a stored token *does* change
`lastLogin` (to the resume time), and a stored token whose access field is
empty is silently ignored — no failure is recorded (the state, including
`needsLogin = false` and `error = ""`, is unchanged) rather than failing with
a no-stored-token error. -/
theorem c6_counterexample :
    (doListen "" "" (.error "e") none true true true 7
        ⟨⟨false, none, false, ""⟩, false, 0, some ⟨"acc", "ref"⟩⟩).auth.lastLogin = some 7
  ∧ (doListen "" "" (.error "e") none true true true 7
        ⟨⟨false, none, false, ""⟩, false, 0, some ⟨"", "ref"⟩⟩)
      = ⟨⟨false, none, false, ""⟩, false, 0, some ⟨"", "ref"⟩⟩ := by
  constructor
  · decide
  · decide

/-- C6 amended: when the token file is absent (and no auto-login is
configured) the failed status "No valid tokens found" is recorded; when the
stored access token is empty nothing at all happens; when it is non-empty the
logged-in status is recorded with `lastLogin` set to the current time and the
same `startWebDAVServer` as after interactive login runs. -/
theorem c6_amended (envU envP : String) (be : Except String Tokens)
    (storeErr : Option String) (io bo se : Bool) (now : Nat) (s : SysState) :
    (s.tokenFile = none → canAutoLogin envU envP = false →
      doListen envU envP be storeErr io bo se now s
        = { s with auth := { s.auth with
            loggedIn := false, needsLogin := true, error := "No valid tokens found" } })
  ∧ (∀ toks : Tokens, s.tokenFile = some toks → toks.accessToken = "" →
      doListen envU envP be storeErr io bo se now s = s)
  ∧ (∀ toks : Tokens, s.tokenFile = some toks → toks.accessToken ≠ "" →
      doListen envU envP be storeErr io bo se now s
        = startWebDAVServer io bo se
            { s with auth := { s.auth with
                loggedIn := true, lastLogin := some now, needsLogin := false } }) := by
  refine ⟨?_, ?_, ?_⟩
  · intro htf hca
    have hca' : ¬(canAutoLogin envU envP = true) := by simp [hca]
    rcases s with ⟨a, hs, l, tf⟩
    simp only at htf
    subst htf
    simp only [doListen, if_neg hca']
  · intro toks htf hacc
    rcases s with ⟨a, hs, l, tf⟩
    simp only at htf
    subst htf
    simp only [doListen]
    rw [if_neg (by simpa using hacc)]
  · intro toks htf hacc
    rcases s with ⟨a, hs, l, tf⟩
    simp only at htf
    subst htf
    simp only [doListen]
    rw [if_pos (by simpa using hacc)]

/-- Witness for `c6_amended`: a concrete resume from a non-empty stored
access token runs the server start on the logged-in state. -/
theorem c6_amended_witness :
    doListen "" "" (.error "e") none true true true 7
        ⟨⟨false, none, false, ""⟩, false, 0, some ⟨"acc", "ref"⟩⟩
      = startWebDAVServer true true true
          ⟨⟨true, some 7, false, ""⟩, false, 0, some ⟨"acc", "ref"⟩⟩ :=
  (c6_amended "" "" (.error "e") none true true true 7
      ⟨⟨false, none, false, ""⟩, false, 0, some ⟨"acc", "ref"⟩⟩).2.2
    ⟨"acc", "ref"⟩ rfl (by decide)

/-! ## Admin authorization (C7) -/

/-- C7 counterexample: a session whose expiry equals the current instant is
*allowed* by `withAdminAuth` (Go's `time.Now().After(expiry)` is strict), so
"allowed iff `expiresAt > now`" fails at `expiresAt = now`. -/
theorem c7_counterexample :
    withAdminAuth ⟨true, "h", "s", [("t", 5)]⟩ (some "t") 5 = true
  ∧ (⟨true, "h", "s", [("t", 5)]⟩ : AdminAuth).initialized = true
  ∧ ((⟨true, "h", "s", [("t", 5)]⟩ : AdminAuth).sessions.lookup "t" = some 5)
  ∧ ¬(5 > 5) := by
  refine ⟨?_, rfl, ?_, ?_⟩
  · decide
  · decide
  · decide

/-- C7 amended: the request is allowed iff no admin credential is initialized
or the cookie's token maps to a session with `expiresAt ≥ now` (rejected only
when `now` is strictly after the expiry); a session strictly in the past is
rejected even though it is still present in the sessions mapping. -/
theorem c7_amended (auth : AdminAuth) (cookie : Option String) (now : Nat) :
    (withAdminAuth auth cookie now = true ↔
      auth.initialized = false ∨
        ∃ (tok : String) (expiry : Nat), cookie = some tok
          ∧ auth.sessions.lookup tok = some expiry ∧ now ≤ expiry)
  ∧ (∀ (tok : String) (expiry : Nat), auth.initialized = true →
      auth.sessions.lookup tok = some expiry → expiry < now →
      withAdminAuth auth (some tok) now = false) := by
  constructor
  · rcases auth with ⟨init, ph, sa, sess⟩
    cases init with
    | false => simp [withAdminAuth]
    | true =>
      simp only [withAdminAuth]
      cases cookie with
      | none => simp
      | some tok =>
        cases hl : sess.lookup tok with
        | none => simp [hl]
        | some expiry =>
          simp only [hl, Bool.not_true, Bool.false_eq_true, if_false]
          constructor
          · intro hb
            right
            refine ⟨tok, expiry, rfl, hl, ?_⟩
            simp only [Bool.not_eq_true', decide_eq_false_iff_not, Nat.not_lt] at hb
            omega
          · intro hb
            rcases hb with hb | ⟨tok2, e2, htok, hlk, hle⟩
            · simp at hb
            · cases Option.some.inj htok
              rw [hl] at hlk
              cases Option.some.inj hlk
              simp only [Bool.not_eq_true', decide_eq_false_iff_not, Nat.not_lt]
              omega
  · intro tok expiry hinit hl hlt
    rcases auth with ⟨init, ph, sa, sess⟩
    simp only at hinit hl
    subst hinit
    simp only [withAdminAuth, Bool.not_true, Bool.false_eq_true, if_false, hl]
    simp only [Bool.not_eq_false', decide_eq_true_eq]
    omega

/-- Witness for `c7_amended`: the passive-expiry scenario, a session one
second in the past, still present in the mapping, is rejected. -/
theorem c7_amended_witness :
    withAdminAuth ⟨true, "h", "s", [("t", 4)]⟩ (some "t") 5 = false :=
  (c7_amended ⟨true, "h", "s", [("t", 4)]⟩ (some "t") 5).2 "t" 4 rfl (by decide) (by decide)

/-! ## Admin setup failures (C8) -/

/-- C8: setup on an already-initialized credential fails with the
already-initialized error leaving the digest, salt and sessions unchanged
(the state is returned as-is), and a password under 8 bytes fails with the
weak-password error, likewise unchanged; in both cases no session is
created. -/
theorem c8_setup_failures (H : String → String) (auth : AdminAuth) (password : String)
    (saltGen : Option String) (storeOk : Bool) (tokenGen : Option String) (now : Nat) :
    (auth.initialized = true →
      handleAdminSetup H auth password saltGen storeOk tokenGen now
        = (auth, .alreadyInitialized))
  ∧ (auth.initialized = false → password.utf8ByteSize < 8 →
      handleAdminSetup H auth password saltGen storeOk tokenGen now
        = (auth, .weakPassword)) := by
  constructor
  · intro h
    simp [handleAdminSetup, h]
  · intro h hlen
    simp [handleAdminSetup, h, hlen]

/-- Witness for `c8_setup_failures` at concrete states: a second setup call
and a 5-byte password both fail without touching the state. -/
theorem c8_setup_failures_witness :
    handleAdminSetup id ⟨true, "digest", "oldsalt", []⟩ "password123" (some "sa") true
        (some "t") 0
      = (⟨true, "digest", "oldsalt", []⟩, .alreadyInitialized)
  ∧ handleAdminSetup id ⟨false, "", "", []⟩ "short" (some "sa") true (some "t") 0
      = (⟨false, "", "", []⟩, .weakPassword) :=
  ⟨(c8_setup_failures id ⟨true, "digest", "oldsalt", []⟩ "password123" (some "sa") true
      (some "t") 0).1 rfl,
   (c8_setup_failures id ⟨false, "", "", []⟩ "short" (some "sa") true (some "t") 0).2 rfl
      (by decide)⟩

/-! ## Setup-then-login round trip (C9) -/

theorem append_right_cancel_str {a b c : String} (h : a ++ c = b ++ c) : a = b := by
  have hd := congrArg String.data h
  simp only [String.data_append] at hd
  exact String.ext (List.append_cancel_right hd)

/-- C9: for any password of at least 8 bytes, a successful `Setup` followed
by `Login` with the same password succeeds with a fresh session token, and
`Login` with any other password fails with the invalid-password error — under
the assumption that the abstracted digest `H` is collision-free (the spec
treats the salted-digest primitive abstractly). -/
theorem c9_setup_then_login (H : String → String) (hinj : Function.Injective H)
    (auth : AdminAuth) (hinit : auth.initialized = false) (p salt tok tok2 : String)
    (hlen : 8 ≤ p.utf8ByteSize) (now now2 : Nat) :
    ((handleAdminSetup H auth p (some salt) true (some tok) now).2 = .success tok)
  ∧ ((handleAdminLogin H (handleAdminSetup H auth p (some salt) true (some tok) now).1
        p (some tok2) now2).2 = .success tok2)
  ∧ (∀ q : String, q ≠ p →
      (handleAdminLogin H (handleAdminSetup H auth p (some salt) true (some tok) now).1
        q (some tok2) now2).2 = .invalidPassword) := by
  have hlen' : ¬(p.utf8ByteSize < 8) := by omega
  have hA : (handleAdminSetup H auth p (some salt) true (some tok) now).1
      = ⟨true, H (p ++ salt), salt, (tok, now + sessionDuration) :: auth.sessions⟩ := by
    simp [handleAdminSetup, hinit, hlen', hashPassword]
  refine ⟨?_, ?_, ?_⟩
  · simp [handleAdminSetup, hinit, hlen']
  · rw [hA]
    simp [handleAdminLogin, hashPassword]
  · intro q hq
    have hne : H (q ++ salt) ≠ H (p ++ salt) := by
      intro he
      exact hq (append_right_cancel_str (hinj he))
    rw [hA]
    simp [handleAdminLogin, hashPassword, hne]

/-- Witness for `c9_setup_then_login` with the identity as (injective) stand-in
digest and a concrete 9-byte password. -/
theorem c9_setup_then_login_witness :
    ((handleAdminSetup id ⟨false, "", "", []⟩ "password1" (some "sa") true (some "t1") 0).2
        = .success "t1")
  ∧ ((handleAdminLogin id
        (handleAdminSetup id ⟨false, "", "", []⟩ "password1" (some "sa") true (some "t1") 0).1
        "password1" (some "t2") 1).2 = .success "t2")
  ∧ ((handleAdminLogin id
        (handleAdminSetup id ⟨false, "", "", []⟩ "password1" (some "sa") true (some "t1") 0).1
        "different1" (some "t2") 1).2 = .invalidPassword) :=
  ⟨(c9_setup_then_login id Function.injective_id ⟨false, "", "", []⟩ rfl
      "password1" "sa" "t1" "t2" (by decide) 0 1).1,
   (c9_setup_then_login id Function.injective_id ⟨false, "", "", []⟩ rfl
      "password1" "sa" "t1" "t2" (by decide) 0 1).2.1,
   (c9_setup_then_login id Function.injective_id ⟨false, "", "", []⟩ rfl
      "password1" "sa" "t1" "t2" (by decide) 0 1).2.2 "different1" (by decide)⟩

/-! ## Persistence failures (C10) -/

/-- C10 counterexample: after a successful backend login, a failing
`storeTokens` does *not* leave the session logged in in memory and *is*
returned to the caller: `loggedIn` stays `false` and the error comes back. -/
theorem c10_counterexample :
    ((loginWithCredentials (.ok ⟨"newacc", "newref"⟩) (some "write failed") true true true 9
        ⟨⟨false, none, true, "Tokens expired"⟩, false, 0, none⟩).1).auth.loggedIn = false
  ∧ (loginWithCredentials (.ok ⟨"newacc", "newref"⟩) (some "write failed") true true true 9
        ⟨⟨false, none, true, "Tokens expired"⟩, false, 0, none⟩).2
      = some "write failed" :=
  ⟨rfl, rfl⟩

/-- C10 amended: only in the `OnTokensUpdated` renewal callback is a token
persistence failure non-fatal — the callback changes nothing and surfaces no
error (it has no caller to return to); in the interactive-login path a
persistence failure after a successful backend login is returned to the
caller and the in-memory state is left unchanged (never set to logged-in). -/
theorem c10_amended :
    (∀ (e : String) (toks : Tokens) (s : SysState),
      onTokensUpdated (some e) toks s = s)
  ∧ (∀ (toks : Tokens) (s : SysState),
      onTokensUpdated none toks s = { s with tokenFile := some toks })
  ∧ (∀ (toks : Tokens) (e : String) (io bo se : Bool) (now : Nat) (s : SysState),
      loginWithCredentials (.ok toks) (some e) io bo se now s = (s, some e)) :=
  ⟨fun _ _ _ => rfl, fun _ _ => rfl, fun _ _ _ _ _ _ _ => rfl⟩

end ProtonWebdavBridge
